import Mathlib

/-!
Verification of the primer-webscraper crawl service (src/main.py).

The development embeds the request handler as pure functions:
configuration normalization (lines 38-78), bearer-token auth
(`verify_auth`, lines 20-24), and the retry orchestration loop
(lines 80-120).  The external Crawl Engine (crawl4ai) is an opaque
collaborator and is modelled as a stub mapping each attempt index to
its outcome, exactly the stubbing the spec's testable properties use.
-/

/-- Python values as they appear in the loosely typed request mappings
(`Dict[str, Any]`).  A float literal is represented by its decimal value
as a rational; no claim computes with floats. -/
inductive PyVal where
  | none
  | bool (b : Bool)
  | int (n : Int)
  | float (q : Rat)
  | str (s : String)
  | list (xs : List PyVal)
  | dict (entries : List (String × PyVal))

/-- A Python `Dict[str, Any]`. -/
abbrev PyDict := List (String × PyVal)

/-- Python `d.get(key, default)` on a dict. -/
def pyGet (d : PyDict) (key : String) (dflt : PyVal) : PyVal :=
  match d.lookup key with
  | some v => v
  | Option.none => dflt

/-- Python `d.get(key)` on a dict (default `None`). -/
def pyGetOpt (d : PyDict) (key : String) : PyVal :=
  pyGet d key .none

/-- Message of the `AttributeError` Python raises for `None.get(...)`. -/
def attributeErrorNone : String :=
  "AttributeError: NoneType object has no attribute get"

/-- Message of the `AttributeError` Python raises when `.get` is called on a
non-dict value. -/
def attributeErrorNoGet : String :=
  "AttributeError: object has no attribute get"

/-- Message of the `ValueError` raised by `CacheMode(value)` on a non-member. -/
def valueErrorNotCacheMode : String :=
  "ValueError: not a valid CacheMode"

/-- `request.browser_config.get(...)` / `request.crawler_config.get(...)`:
the field is `Optional[Dict[str, Any]]`, and Python raises `AttributeError`
when it is `None` (lines 39-41, 47, 55, 66-75). -/
def optDictGet (d : Option PyDict) (key : String) (dflt : PyVal) :
    Except String PyVal :=
  match d with
  | Option.none => Except.error attributeErrorNone
  | some entries => Except.ok (pyGet entries key dflt)

/-- `content_filter.get(...)` / `markdown_generator.get(...)` where the
receiver is itself the result of a `.get` and may be any Python value:
a dict looks the key up, anything else raises `AttributeError`
(lines 49-51, 58-60). -/
def pyValGet (v : PyVal) (key : String) (dflt : PyVal) : Except String PyVal :=
  match v with
  | .dict entries => Except.ok (pyGet entries key dflt)
  | .none => Except.error attributeErrorNone
  | _ => Except.error attributeErrorNoGet

/-- The request body schema (lines 27-30): both config mappings are
`Optional[...] = None`. -/
structure CrawlRequest where
  url : String
  browser_config : Option PyDict
  crawler_config : Option PyDict

/-- `BrowserConfig` as constructed at lines 38-42. -/
structure BrowserConfig where
  verbose : PyVal
  headless : PyVal
  text_mode : PyVal

/-- `PruningContentFilter` as constructed at lines 48-52. -/
structure PruningContentFilter where
  threshold : PyVal
  threshold_type : PyVal
  min_word_threshold : PyVal

/-- The options dict of `DefaultMarkdownGenerator` (lines 56-62). -/
structure MarkdownOptions where
  ignore_links : PyVal
  ignore_images : PyVal
  escape_html : PyVal

/-- `CrawlerRunConfig` as constructed at lines 65-78. -/
structure CrawlerRunConfig where
  cache_mode : PyVal
  verbose : PyVal
  wait_until : PyVal
  only_text : PyVal
  excluded_tags : PyVal
  exclude_external_links : PyVal
  exclude_social_media_links : PyVal
  exclude_external_images : PyVal
  remove_overlay_elements : PyVal
  page_timeout : PyVal
  content_filter : PruningContentFilter
  markdown_generator : MarkdownOptions

/-- The three strongly typed structures the Configuration Normalizer
produces. -/
structure NormalizedConfigs where
  browser : BrowserConfig
  run : CrawlerRunConfig

/-- The Configuration Normalizer (lines 38-78), with Python evaluation
order preserved: an `AttributeError` from a `.get` on `None` escapes at the
first dereference.  `CacheMode` is an external enum; membership of a value
in it is the opaque parameter `isCacheMode` (`CacheMode(v)` raises
`ValueError` on a non-member).  Enum members are truthy, so the
`or CacheMode.BYPASS` at line 66 keeps the constructed member. -/
def normalizeConfigs (isCacheMode : PyVal → Bool) (req : CrawlRequest) :
    Except String NormalizedConfigs := do
  let verbose ← optDictGet req.browser_config "verbose" (.bool true)
  let headless ← optDictGet req.browser_config "headless" (.bool false)
  let text_mode ← optDictGet req.browser_config "text_mode" (.bool true)
  let browser : BrowserConfig := ⟨verbose, headless, text_mode⟩
  let content_filter ← optDictGet req.crawler_config "content_filter" .none
  let threshold ← pyValGet content_filter "threshold" (.float (9 / 10))
  let threshold_type ← pyValGet content_filter "threshold_type" (.str "dynamic")
  let min_word_threshold ← pyValGet content_filter "min_word_threshold" (.int 50)
  let markdown_generator ← optDictGet req.crawler_config "markdown_generator" .none
  let ignore_links ← pyValGet markdown_generator "ignore_links" (.bool true)
  let ignore_images ← pyValGet markdown_generator "ignore_images" (.bool true)
  let escape_html ← pyValGet markdown_generator "escape_html" (.bool true)
  let cache_mode_raw ← optDictGet req.crawler_config "cache_mode" .none
  let cache_mode ← if isCacheMode cache_mode_raw then Except.ok cache_mode_raw
    else Except.error valueErrorNotCacheMode
  let verbose_run ← optDictGet req.crawler_config "verbose" (.bool true)
  let wait_until ← optDictGet req.crawler_config "wait_until" (.str "load")
  let only_text ← optDictGet req.crawler_config "only_text" (.bool true)
  let excluded_tags ← optDictGet req.crawler_config "excluded_tags"
    (.list [.str "form", .str "nav", .str "footer", .str "header", .str "aside",
            .str "script", .str "style", .str "iframe"])
  let exclude_external_links ←
    optDictGet req.crawler_config "exclude_external_links" (.bool true)
  let exclude_social_media_links ←
    optDictGet req.crawler_config "exclude_social_media_links" (.bool true)
  let exclude_external_images ←
    optDictGet req.crawler_config "exclude_external_images" (.bool true)
  let remove_overlay_elements ←
    optDictGet req.crawler_config "remove_overlay_elements" (.bool true)
  let page_timeout ← optDictGet req.crawler_config "page_timeout" (.int 180000)
  Except.ok ⟨browser,
    ⟨cache_mode, verbose_run, wait_until, only_text, excluded_tags,
     exclude_external_links, exclude_social_media_links,
     exclude_external_images, remove_overlay_elements, page_timeout,
     ⟨threshold, threshold_type, min_word_threshold⟩,
     ⟨ignore_links, ignore_images, escape_html⟩⟩⟩

/-- `result.markdown_v2` of a `CrawlResult`. -/
structure MarkdownResult where
  raw_markdown : String

/-- The Crawl Engine's result object, as read by the handler
(lines 89-108): `success`, `error_message`, `status_code`, the metadata
mapping and the markdown output. -/
structure CrawlResult where
  success : Bool
  error_message : PyVal
  status_code : PyVal
  metadata : PyDict
  markdown_v2 : MarkdownResult

/-- One engine attempt as seen by the retry loop: `crawler.arun` (together
with the `async with` session) either raises or returns a `CrawlResult`. -/
inductive EngineOutcome where
  | raises (msg : String)
  | returns (r : CrawlResult)

/-- An exception as caught by the loop's `except Exception` handler
(line 110): either the `HTTPException` raised at lines 90-96 for an
engine-reported `success=False` (carrying status 400 and the detail dict
`error` / `status_code`), or any other error raised by the engine call. -/
inductive Exc where
  | httpException (status : Nat) (error : PyVal) (status_code : PyVal)
  | engineError (msg : String)

/-- The success payload dict returned at lines 97-108.  A metadata key
absent from the mapping yields the Python value `None` for its field. -/
structure SuccessPayload where
  title : PyVal
  description : PyVal
  type : PyVal
  image : PyVal
  url : PyVal
  site_name : PyVal
  author : PyVal
  keywords : PyVal
  raw_markdown : String

/-- The terminal failure payload dict returned at lines 114-118:
`{success: False, message: ex, content: None}` — `message` holds the
caught exception object itself. -/
structure FailurePayload where
  message : Exc

/-- A response body produced by the handler: the success payload or the
terminal failure payload.  Its `success` field is `True` exactly on the
first form. -/
inductive CrawlResponse where
  | ok (p : SuccessPayload)
  | failed (p : FailurePayload)

/-- The `success` field of a response body. -/
def CrawlResponse.successField : CrawlResponse → Bool
  | .ok _ => true
  | .failed _ => false

/-- The `message` field of a response body: present (the caught exception)
in the failure payload, absent from the success payload. -/
def CrawlResponse.messageField : CrawlResponse → Option Exc
  | .ok _ => Option.none
  | .failed p => some p.message

/-- The `content` field of a response body: present and `None` in the
failure payload, absent from the success payload. -/
def CrawlResponse.contentField : CrawlResponse → Option PyVal
  | .ok _ => Option.none
  | .failed _ => some PyVal.none

/-- The Result Mapper (lines 97-108): `result.metadata.get(...)` for each
mapped key, plus `result.markdown_v2.raw_markdown`. -/
def mapResult (r : CrawlResult) : SuccessPayload :=
  ⟨pyGetOpt r.metadata "og:title",
   pyGetOpt r.metadata "og:description",
   pyGetOpt r.metadata "og:type",
   pyGetOpt r.metadata "og:image",
   pyGetOpt r.metadata "og:url",
   pyGetOpt r.metadata "og:site_name",
   pyGetOpt r.metadata "author",
   pyGetOpt r.metadata "keywords",
   r.markdown_v2.raw_markdown⟩

/-- `max_retries = 5` (line 80). -/
def max_retries : Nat := 5

/-- The fixed `time.sleep(5)` inter-attempt delay, in seconds (line 120). -/
def delay_seconds : Nat := 5

/-- The body of one loop iteration up to the `except` (lines 82-108):
run the engine; a raised error, or the `HTTPException` raised for
`success=False`, lands in the iteration's own `except Exception` handler
(`HTTPException` subclasses `Exception` and the `raise` is inside the
`try`); a `success=True` result is mapped and returned. -/
def attemptOutcome (engine : Nat → EngineOutcome) (i : Nat) :
    Except Exc SuccessPayload :=
  match engine i with
  | .raises msg => Except.error (.engineError msg)
  | .returns r =>
    if r.success then Except.ok (mapResult r)
    else Except.error (.httpException 400 r.error_message r.status_code)

/-- The `for i in range(max_retries)` retry loop (lines 81-120), given the
list of remaining attempt indices; instrumented with the number of engine
invocations and the list of inter-attempt delays (in seconds, in order).
A `none` response models Python falling off the loop without `return`. -/
def crawlAttempts (engine : Nat → EngineOutcome) :
    List Nat → Option CrawlResponse × Nat × List Nat
  | [] => (Option.none, 0, [])
  | i :: rest =>
    match attemptOutcome engine i with
    | Except.ok p => (some (.ok p), 1, [])
    | Except.error ex =>
      if i = max_retries - 1 then (some (.failed ⟨ex⟩), 1, [])
      else
        match crawlAttempts engine rest with
        | (resp, n, ds) => (resp, n + 1, delay_seconds :: ds)

/-- The Retry Orchestrator's contract (`attempt_crawl`, spec section 4.2):
the retry loop run over attempt indices `0, ..., max_retries - 1`. -/
def attempt_crawl (engine : Nat → EngineOutcome) :
    Option CrawlResponse × Nat × List Nat :=
  crawlAttempts engine (List.range max_retries)

/-- The parsed `Authorization` credentials handed to `verify_auth`. -/
structure HTTPAuthorizationCredentials where
  scheme : String
  credentials : String

/-- ASCII lowercasing of one character, as Python `str.lower()` does on
the scheme word. -/
def lowerChar (c : Char) : Char :=
  if 65 ≤ c.toNat ∧ c.toNat ≤ 90 then Char.ofNat (c.toNat + 32) else c

/-- Python `s.lower()` (the scheme word is ASCII). -/
def lowerString (s : String) : String :=
  ⟨s.data.map lowerChar⟩

/-- `verify_auth` (lines 20-24).  `PRIMER_API_TOKEN = os.getenv(...)` may
be absent, and Python `s != None` is `True` for every string, so the
comparison lives in `Option String`. -/
def verify_auth (primer_api_token : Option String)
    (credentials : HTTPAuthorizationCredentials) : Except (Nat × String) Unit :=
  if lowerString credentials.scheme ≠ "bearer" ∨
      some credentials.credentials ≠ primer_api_token then
    Except.error (401, "Invalid or missing token")
  else Except.ok ()

/-- What the HTTP layer sends back for one `/crawl` request: an HTTP error
raised before the handler body ran, an exception that escaped the handler
body unhandled, or the handler's returned body. -/
inductive EndpointResult where
  | httpError (status : Nat) (detail : String)
  | unhandled (msg : String)
  | body (response : Option CrawlResponse)

/-- Whether the endpoint produced a handler body at all. -/
def EndpointResult.isBody : EndpointResult → Bool
  | .body _ => true
  | _ => false

/-- Modelled from the spec: the bearer security dependency (`HTTPBearer`
wrapping `verify_auth`, an external collaborator) rejects a request
carrying no credentials before the handler runs; per section 4.4 the
response is 401 with detail "Invalid or missing token" when the token is
absent. -/
def missingCredentialsError : Nat × String :=
  (401, "Invalid or missing token")

/-- The `/crawl` endpoint (line 36 onward): security dependency and
`verify_auth`, then the handler body — configuration normalization
followed by the retry loop.  Returns the HTTP-level result together with
the engine invocation count and the inter-attempt delays. -/
def crawlEndpoint (primer_api_token : Option String)
    (creds : Option HTTPAuthorizationCredentials)
    (isCacheMode : PyVal → Bool) (engine : Nat → EngineOutcome)
    (req : CrawlRequest) : EndpointResult × Nat × List Nat :=
  match creds with
  | Option.none =>
    (.httpError missingCredentialsError.1 missingCredentialsError.2, 0, [])
  | some c =>
    match verify_auth primer_api_token c with
    | Except.error (s, d) => (.httpError s d, 0, [])
    | Except.ok _ =>
      match normalizeConfigs isCacheMode req with
      | Except.error msg => (.unhandled msg, 0, [])
      | Except.ok _ =>
        match attempt_crawl engine with
        | (resp, n, ds) => (.body resp, n, ds)

/-- `Except.ok`-ness as a boolean, used to state that configuration
normalization raised no error. -/
def exceptOk {ε α : Type} : Except ε α → Bool
  | Except.ok _ => true
  | Except.error _ => false

/-! ## Theorems -/

lemma range_max_retries : List.range max_retries = [0, 1, 2, 3, 4] := rfl

/-- C1: with valid auth, when the Crawl Engine fails (raises, or returns
`success=False`) on every attempt, the Retry Orchestrator invokes the
engine exactly 5 times and the request returns the terminal failure
payload `{success: False, message: <non-null>, content: None}`. -/
theorem all_attempts_fail_terminal_payload (engine : Nat → EngineOutcome)
    (h : ∀ i, i < max_retries → ∃ ex, attemptOutcome engine i = Except.error ex) :
    (attempt_crawl engine).2.1 = 5 ∧
    ∃ ex, (attempt_crawl engine).1 = some (CrawlResponse.failed ⟨ex⟩) ∧
      (CrawlResponse.failed ⟨ex⟩).successField = false ∧
      (CrawlResponse.failed ⟨ex⟩).messageField = some ex ∧
      (CrawlResponse.failed ⟨ex⟩).contentField = some PyVal.none := by
  obtain ⟨e0, h0⟩ := h 0 (by norm_num [max_retries])
  obtain ⟨e1, h1⟩ := h 1 (by norm_num [max_retries])
  obtain ⟨e2, h2⟩ := h 2 (by norm_num [max_retries])
  obtain ⟨e3, h3⟩ := h 3 (by norm_num [max_retries])
  obtain ⟨e4, h4⟩ := h 4 (by norm_num [max_retries])
  have hmain : attempt_crawl engine =
      (some (CrawlResponse.failed ⟨e4⟩), 5, [5, 5, 5, 5]) := by
    unfold attempt_crawl
    rw [range_max_retries]
    simp [crawlAttempts, h0, h1, h2, h3, h4, max_retries, delay_seconds]
  exact ⟨by rw [hmain], e4, by rw [hmain], rfl, rfl, rfl⟩

theorem all_attempts_fail_terminal_payload_witness :
    (attempt_crawl (fun _ => EngineOutcome.raises "engine down")).2.1 = 5 ∧
    ∃ ex, (attempt_crawl (fun _ => EngineOutcome.raises "engine down")).1 =
        some (CrawlResponse.failed ⟨ex⟩) ∧
      (CrawlResponse.failed ⟨ex⟩).successField = false ∧
      (CrawlResponse.failed ⟨ex⟩).messageField = some ex ∧
      (CrawlResponse.failed ⟨ex⟩).contentField = some PyVal.none :=
  all_attempts_fail_terminal_payload _
    (fun _ _ => ⟨Exc.engineError "engine down", rfl⟩)

/-- C2: when the Crawl Engine fails on attempts 1-4 and succeeds on
attempt 5, exactly 5 invocations occur, each consecutive pair separated by
the fixed 5-second delay, and the final response is the success payload
mapped from attempt 5's result. -/
theorem retry_until_fifth_success (engine : Nat → EngineOutcome)
    (r : CrawlResult)
    (hfail : ∀ i, i < 4 → ∃ ex, attemptOutcome engine i = Except.error ex)
    (h4 : engine 4 = EngineOutcome.returns r) (hs : r.success = true) :
    attempt_crawl engine =
      (some (CrawlResponse.ok (mapResult r)), 5, [5, 5, 5, 5]) := by
  obtain ⟨e0, h0⟩ := hfail 0 (by norm_num)
  obtain ⟨e1, h1⟩ := hfail 1 (by norm_num)
  obtain ⟨e2, h2⟩ := hfail 2 (by norm_num)
  obtain ⟨e3, h3⟩ := hfail 3 (by norm_num)
  have ha4 : attemptOutcome engine 4 = Except.ok (mapResult r) := by
    simp [attemptOutcome, h4, hs]
  unfold attempt_crawl
  rw [range_max_retries]
  simp [crawlAttempts, h0, h1, h2, h3, ha4, max_retries, delay_seconds]

def stubSuccessResult : CrawlResult :=
  ⟨true, PyVal.none, PyVal.none,
   [("og:title", PyVal.str "Example Title")], ⟨"# example markdown"⟩⟩

def stubFlakyEngine : Nat → EngineOutcome := fun i =>
  if i < 4 then EngineOutcome.raises (String.append "boom " (toString i))
  else EngineOutcome.returns stubSuccessResult

theorem retry_until_fifth_success_witness :
    attempt_crawl stubFlakyEngine =
      (some (CrawlResponse.ok (mapResult stubSuccessResult)), 5, [5, 5, 5, 5]) :=
  retry_until_fifth_success stubFlakyEngine stubSuccessResult
    (by intro i hi; interval_cases i <;> exact ⟨_, rfl⟩) rfl rfl

/-- C3: when the Crawl Engine succeeds on the first attempt, the Retry
Orchestrator invokes it exactly once, performs no delay and no further
attempts, and the response's `raw_markdown` equals the engine result's
markdown output. -/
theorem first_attempt_success (engine : Nat → EngineOutcome)
    (r : CrawlResult)
    (h0 : engine 0 = EngineOutcome.returns r) (hs : r.success = true) :
    attempt_crawl engine = (some (CrawlResponse.ok (mapResult r)), 1, []) ∧
      (mapResult r).raw_markdown = r.markdown_v2.raw_markdown := by
  have ha0 : attemptOutcome engine 0 = Except.ok (mapResult r) := by
    simp [attemptOutcome, h0, hs]
  constructor
  · unfold attempt_crawl
    rw [range_max_retries]
    simp [crawlAttempts, ha0]
  · rfl

theorem first_attempt_success_witness :
    attempt_crawl (fun _ => EngineOutcome.returns stubSuccessResult) =
        (some (CrawlResponse.ok (mapResult stubSuccessResult)), 1, []) ∧
      (mapResult stubSuccessResult).raw_markdown =
        stubSuccessResult.markdown_v2.raw_markdown :=
  first_attempt_success _ stubSuccessResult rfl rfl

/-- C5: for a successful `CrawlResult` whose metadata mapping lacks a
mapped key (here `og:title`), the Result Mapper yields the null value for
the corresponding response field and never raises or omits the key: the
success payload is still produced, with `title = None`. -/
theorem mapper_missing_key_yields_null (engine : Nat → EngineOutcome)
    (r : CrawlResult)
    (h0 : engine 0 = EngineOutcome.returns r) (hs : r.success = true)
    (hmiss : r.metadata.lookup "og:title" = Option.none) :
    (attempt_crawl engine).1 = some (CrawlResponse.ok (mapResult r)) ∧
      (mapResult r).title = PyVal.none := by
  have ha0 : attemptOutcome engine 0 = Except.ok (mapResult r) := by
    simp [attemptOutcome, h0, hs]
  constructor
  · unfold attempt_crawl
    rw [range_max_retries]
    simp [crawlAttempts, ha0]
  · simp [mapResult, pyGetOpt, pyGet, hmiss]

def stubNoTitleResult : CrawlResult :=
  ⟨true, PyVal.none, PyVal.none,
   [("og:description", PyVal.str "a page")], ⟨"body text"⟩⟩

theorem mapper_missing_key_yields_null_witness :
    (attempt_crawl (fun _ => EngineOutcome.returns stubNoTitleResult)).1 =
        some (CrawlResponse.ok (mapResult stubNoTitleResult)) ∧
      (mapResult stubNoTitleResult).title = PyVal.none :=
  mapper_missing_key_yields_null _ stubNoTitleResult rfl rfl rfl

/-- C8: on the terminal (5th) failed attempt, the returned payload's
`message` field carries exactly the 5th attempt's exception — the most
recent error, whatever the earlier attempts' errors were. -/
theorem terminal_message_is_last_failure (engine : Nat → EngineOutcome)
    (ex4 : Exc)
    (hfail : ∀ i, i < 4 → ∃ ex, attemptOutcome engine i = Except.error ex)
    (h4 : attemptOutcome engine 4 = Except.error ex4) :
    attempt_crawl engine =
      (some (CrawlResponse.failed ⟨ex4⟩), 5, [5, 5, 5, 5]) := by
  obtain ⟨e0, h0⟩ := hfail 0 (by norm_num)
  obtain ⟨e1, h1⟩ := hfail 1 (by norm_num)
  obtain ⟨e2, h2⟩ := hfail 2 (by norm_num)
  obtain ⟨e3, h3⟩ := hfail 3 (by norm_num)
  unfold attempt_crawl
  rw [range_max_retries]
  simp [crawlAttempts, h0, h1, h2, h3, h4, max_retries, delay_seconds]

def stubNumberedFailures : Nat → EngineOutcome := fun i =>
  EngineOutcome.raises (String.append "attempt failure " (toString i))

theorem terminal_message_is_last_failure_witness :
    attempt_crawl stubNumberedFailures =
      (some (CrawlResponse.failed ⟨Exc.engineError "attempt failure 4"⟩),
       5, [5, 5, 5, 5]) :=
  terminal_message_is_last_failure stubNumberedFailures
    (Exc.engineError "attempt failure 4")
    (fun _ _ => ⟨_, rfl⟩) rfl

/-- C10: an engine-reported `success=False` result raises an
`HTTPException` that the retry loop's own `except Exception` handler
catches, so it never terminates the request early with a 400: the
exception becomes the attempt's error, attempts 1-4 are retried exactly
like a raised engine error (all 5 invocations happen), and on attempt 5
it becomes the terminal `{success: False, ...}` payload (or the success
payload, if attempt 5 succeeds) — semantics (b) of the spec's open
question, implemented deterministically. -/
theorem engine_nonsuccess_is_retried (engine : Nat → EngineOutcome)
    (i : Nat) (ri r4 : CrawlResult)
    (hi : engine i = EngineOutcome.returns ri) (hri : ri.success = false)
    (hfail : ∀ j, j < 4 → ∃ rj, engine j = EngineOutcome.returns rj ∧
      rj.success = false)
    (h4 : engine 4 = EngineOutcome.returns r4) :
    attemptOutcome engine i =
      Except.error (Exc.httpException 400 ri.error_message ri.status_code) ∧
    (attempt_crawl engine).2.1 = 5 ∧
    (attempt_crawl engine).1 =
      some (if r4.success then CrawlResponse.ok (mapResult r4)
        else CrawlResponse.failed
          ⟨Exc.httpException 400 r4.error_message r4.status_code⟩) := by
  obtain ⟨r0, hr0, hs0⟩ := hfail 0 (by norm_num)
  obtain ⟨r1, hr1, hs1⟩ := hfail 1 (by norm_num)
  obtain ⟨r2, hr2, hs2⟩ := hfail 2 (by norm_num)
  obtain ⟨r3, hr3, hs3⟩ := hfail 3 (by norm_num)
  have h0 : attemptOutcome engine 0 =
      Except.error (Exc.httpException 400 r0.error_message r0.status_code) := by
    simp [attemptOutcome, hr0, hs0]
  have h1 : attemptOutcome engine 1 =
      Except.error (Exc.httpException 400 r1.error_message r1.status_code) := by
    simp [attemptOutcome, hr1, hs1]
  have h2 : attemptOutcome engine 2 =
      Except.error (Exc.httpException 400 r2.error_message r2.status_code) := by
    simp [attemptOutcome, hr2, hs2]
  have h3 : attemptOutcome engine 3 =
      Except.error (Exc.httpException 400 r3.error_message r3.status_code) := by
    simp [attemptOutcome, hr3, hs3]
  refine ⟨by simp [attemptOutcome, hi, hri], ?_⟩
  cases hc : r4.success with
  | true =>
    have h4o : attemptOutcome engine 4 = Except.ok (mapResult r4) := by
      simp [attemptOutcome, h4, hc]
    constructor <;>
      · unfold attempt_crawl
        rw [range_max_retries]
        simp [crawlAttempts, h0, h1, h2, h3, h4o, max_retries, delay_seconds]
  | false =>
    have h4e : attemptOutcome engine 4 =
        Except.error (Exc.httpException 400 r4.error_message r4.status_code) := by
      simp [attemptOutcome, h4, hc]
    constructor <;>
      · unfold attempt_crawl
        rw [range_max_retries]
        simp [crawlAttempts, h0, h1, h2, h3, h4e, max_retries, delay_seconds]

def stubNonSuccessEngine : Nat → EngineOutcome := fun i =>
  EngineOutcome.returns
    ⟨false, PyVal.str (String.append "engine error " (toString i)),
     PyVal.int 500, [], ⟨""⟩⟩

theorem engine_nonsuccess_is_retried_witness :
    attemptOutcome stubNonSuccessEngine 2 =
      Except.error (Exc.httpException 400 (PyVal.str "engine error 2")
        (PyVal.int 500)) ∧
    (attempt_crawl stubNonSuccessEngine).2.1 = 5 ∧
    (attempt_crawl stubNonSuccessEngine).1 =
      some (CrawlResponse.failed
        ⟨Exc.httpException 400 (PyVal.str "engine error 4") (PyVal.int 500)⟩) :=
  engine_nonsuccess_is_retried stubNonSuccessEngine 2 _ _ rfl rfl
    (fun _ _ => ⟨_, rfl, rfl⟩) rfl

/-- C7: a request whose bearer credentials are missing, or whose scheme is
not "bearer" case-insensitively, or whose token differs (case-sensitively)
from the process-configured secret, is answered 401 with detail
"Invalid or missing token", with zero Crawl Engine invocations. -/
theorem auth_failure_rejects (primer_api_token : Option String)
    (creds : Option HTTPAuthorizationCredentials)
    (isCacheMode : PyVal → Bool) (engine : Nat → EngineOutcome)
    (req : CrawlRequest)
    (h : creds = Option.none ∨ ∃ c, creds = some c ∧
      (lowerString c.scheme ≠ "bearer" ∨ some c.credentials ≠ primer_api_token)) :
    crawlEndpoint primer_api_token creds isCacheMode engine req =
      (EndpointResult.httpError 401 "Invalid or missing token", 0, []) := by
  rcases h with rfl | ⟨c, rfl, hc⟩
  · rfl
  · have hv : verify_auth primer_api_token c =
        Except.error (401, "Invalid or missing token") := by
      unfold verify_auth
      rw [if_pos hc]
    simp [crawlEndpoint, hv]

theorem auth_failure_rejects_witness :
    crawlEndpoint (some "secret-token")
        (some ⟨"Bearer", "wrong-token"⟩) (fun _ => true)
        (fun _ => EngineOutcome.raises "never reached")
        ⟨"https://example.com", Option.none, Option.none⟩ =
      (EndpointResult.httpError 401 "Invalid or missing token", 0, []) :=
  auth_failure_rejects (some "secret-token") _ _ _ _
    (Or.inr ⟨_, rfl, Or.inr (by decide)⟩)

/-- The request of the spec's defaulting scenario: `browser_config` and
`crawler_config` both omitted (so both are `None`, per the schema's
defaults). -/
def requestOmittingConfigs : CrawlRequest :=
  ⟨"https://example.com", Option.none, Option.none⟩

/-- C4: contrary to the claim, an authenticated request omitting both
config sub-sections does not proceed with defaults: the handler
dereferences `request.browser_config` (which is `None`) with `.get`, the
`AttributeError` escapes the handler unhandled, and the engine is never
invoked. -/
theorem config_omitted_sections_errors (isCacheMode : PyVal → Bool)
    (engine : Nat → EngineOutcome) :
    crawlEndpoint (some "secret-token") (some ⟨"Bearer", "secret-token"⟩)
        isCacheMode engine requestOmittingConfigs =
      (EndpointResult.unhandled attributeErrorNone, 0, []) := by
  rfl

lemma attempt_crawl_produces_response (engine : Nat → EngineOutcome) :
    ∃ resp, (attempt_crawl engine).1 = some resp := by
  unfold attempt_crawl
  rw [range_max_retries]
  rcases h0 : attemptOutcome engine 0 with e0 | p0
  case ok => exact ⟨.ok p0, by simp [crawlAttempts, h0]⟩
  rcases h1 : attemptOutcome engine 1 with e1 | p1
  case ok => exact ⟨.ok p1, by simp [crawlAttempts, h0, h1, max_retries]⟩
  rcases h2 : attemptOutcome engine 2 with e2 | p2
  case ok => exact ⟨.ok p2, by simp [crawlAttempts, h0, h1, h2, max_retries]⟩
  rcases h3 : attemptOutcome engine 3 with e3 | p3
  case ok => exact ⟨.ok p3, by simp [crawlAttempts, h0, h1, h2, h3, max_retries]⟩
  rcases h4 : attemptOutcome engine 4 with e4 | p4
  case ok =>
    exact ⟨.ok p4, by simp [crawlAttempts, h0, h1, h2, h3, h4, max_retries]⟩
  exact ⟨.failed ⟨e4⟩, by simp [crawlAttempts, h0, h1, h2, h3, h4, max_retries]⟩

/-- C6 (amended): for every authenticated `/crawl` request on which
configuration normalization raises no error, exactly one `CrawlResponse`
body is produced regardless of how many internal attempts were made and of
whether the engine raised or reported failure on any of them — engine
failures are never raised past the Retry Orchestrator, and the body's
`success` field is a boolean by construction of `CrawlResponse`. -/
theorem single_response_per_request (primer_api_token : Option String)
    (c : HTTPAuthorizationCredentials) (isCacheMode : PyVal → Bool)
    (engine : Nat → EngineOutcome) (req : CrawlRequest)
    (hauth : verify_auth primer_api_token c = Except.ok ())
    (hcfg : exceptOk (normalizeConfigs isCacheMode req) = true) :
    ∃ resp : CrawlResponse,
      (crawlEndpoint primer_api_token (some c) isCacheMode engine req).1 =
        EndpointResult.body (some resp) := by
  obtain ⟨resp, hresp⟩ := attempt_crawl_produces_response engine
  refine ⟨resp, ?_⟩
  rcases hn : normalizeConfigs isCacheMode req with msg | cfg
  · rw [hn] at hcfg
    simp [exceptOk] at hcfg
  · rcases ha : attempt_crawl engine with ⟨r, n, ds⟩
    rw [ha] at hresp
    simp only at hresp
    simp [crawlEndpoint, hauth, hn, ha, hresp]

/-- A request whose `crawler_config` carries the two structurally required
sub-dicts, on which normalization succeeds. -/
def wellFormedRequest : CrawlRequest :=
  ⟨"https://example.com", some [],
   some [("content_filter", PyVal.dict []),
         ("markdown_generator", PyVal.dict [])]⟩

theorem single_response_per_request_witness :
    ∃ resp : CrawlResponse,
      (crawlEndpoint (some "secret-token")
          (some ⟨"Bearer", "secret-token"⟩) (fun _ => true)
          (fun _ => EngineOutcome.raises "engine down") wellFormedRequest).1 =
        EndpointResult.body (some resp) :=
  single_response_per_request (some "secret-token")
    ⟨"Bearer", "secret-token"⟩ (fun _ => true)
    (fun _ => EngineOutcome.raises "engine down") wellFormedRequest
    (by rfl) (by rfl)

/-- C6, as stated, is false: this authenticated request (omitting the
config sub-sections) produces no `CrawlResponse` at all — the handler
dies with an unhandled `AttributeError` before the retry loop runs. -/
theorem single_response_counterexample :
    ((crawlEndpoint (some "secret-token") (some ⟨"Bearer", "secret-token"⟩)
        (fun _ => true) (fun _ => EngineOutcome.raises "engine down")
        requestOmittingConfigs).1).isBody = false ∧
    (crawlEndpoint (some "secret-token") (some ⟨"Bearer", "secret-token"⟩)
        (fun _ => true) (fun _ => EngineOutcome.raises "engine down")
        requestOmittingConfigs).1 =
      EndpointResult.unhandled attributeErrorNone :=
  ⟨rfl, rfl⟩
